import Mathlib

/-!
Verification of the poultry-investment-platform backend core.

The Python source (backend/app) is shallowly embedded here:

* `models.py`   → the record types `UserRow`, `WalletRow`, `Investment`,
  `Batch`, `Payout` and the whole-database state `DB` (currency `Float`
  columns embedded as exact rationals `ℚ`; timestamp columns are omitted
  because no claim and no embedded operation reads them).
* `services/payouts.py` → `simulate_payout_for_batch`,
  `execute_payout_for_batch`.  The SQLAlchemy session is embedded as
  explicit `DB` state passing; a fallible `db.commit()` is embedded as the
  boolean parameter `commitOk` (`false` = the commit raises
  `SQLAlchemyError`); Python `raise` becomes an `Except`-style error value
  paired with the resulting committed state.
* `routers/investors.py` → `deposit`, `create_investment`.

Python `round(x, 2)` is round-half-to-even on two decimal places; it is
embedded exactly on `ℚ` as `pyRound2`.
-/

deriving instance DecidableEq for Except

/-- `models.py` `ProductType` enum. -/
inductive ProductType where
  | EGG : ProductType
  | CHICKEN : ProductType
deriving DecidableEq

/-- `models.py` `User` row (password hash and timestamp omitted: unread here). -/
structure UserRow where
  id : Nat
  email : String
  is_admin : Bool
deriving DecidableEq

/-- `models.py` `Wallet` row. -/
structure WalletRow where
  id : Nat
  user_id : Nat
  balance : ℚ
deriving DecidableEq

/-- `models.py` `Investment` row.  `amount` is a nullable Float column, hence
`Option ℚ`. -/
structure Investment where
  id : Nat
  user_id : Nat
  batch_id : Nat
  units : Int
  amount : Option ℚ
  status : String
deriving DecidableEq

/-- `models.py` `Batch` row, with its `investments` relationship loaded, as the
payout service assumes.  `expected_roi` is a nullable Float column. -/
structure Batch where
  id : Nat
  farm_id : Nat
  product_type : ProductType
  status : String
  unit_price : ℚ
  target_units : Int
  units_placed : Int
  feed_price : ℚ
  mortality_rate : ℚ
  expected_roi : Option ℚ
  investments : List Investment
deriving DecidableEq

/-- `models.py` `Payout` row (server-assigned id and timestamp omitted: no
claim reads them). -/
structure Payout where
  investment_id : Nat
  amount : ℚ
  kind : String
deriving DecidableEq

/-- The committed database state: one list per table touched by the embedded
operations. -/
structure DB where
  users : List UserRow
  wallets : List WalletRow
  batches : List Batch
  investments : List Investment
  payouts : List Payout
deriving DecidableEq

/-- Python `round(x, ndigits)` rounds half to even.  `roundHalfEven x` is that
rounding of a rational to an integer (`x.den` is positive, so
`x.num.ediv x.den` is `⌊x⌋`). -/
def roundHalfEven (x : ℚ) : ℤ :=
  let f : ℤ := x.num.ediv x.den
  let r : ℚ := x - (f : ℚ)
  if r < 1 / 2 then f
  else if 1 / 2 < r then f + 1
  else if f % 2 = 0 then f else f + 1

/-- Python `round(x, 2)`. -/
def pyRound2 (x : ℚ) : ℚ := ((roundHalfEven (x * 100) : ℤ) : ℚ) / 100

/-- Error kinds raised by the payout service: `validation` embeds the
`ValueError`s, `persistence` embeds a `SQLAlchemyError` from `db.commit()`. -/
inductive PayoutError where
  | validation : String → PayoutError
  | persistence : PayoutError
deriving DecidableEq

/-- `payouts.py` `PAYOUT_KIND_RETURN`. -/
def PAYOUT_KIND_RETURN : String := "RETURN"

/-- `payouts.py` `simulate_payout_for_batch`.  The session argument is unused
by the source body, so the state passes through untouched; `raise ValueError`
on a missing `expected_roi` becomes `.error`.  The loop body is
`amt = float(inv.amount or 0.0); total += amt * roi`. -/
def simulate_payout_for_batch (db : DB) (batch : Batch) :
    Except PayoutError ℚ × DB :=
  match batch.expected_roi with
  | none => (.error (.validation "Batch.expected_roi must be set"), db)
  | some roi =>
    let total : ℚ :=
      batch.investments.foldl (fun t inv => t + inv.amount.getD 0 * roi) 0
    (.ok (pyRound2 total), db)

/-- The loop body of `execute_payout_for_batch`: an investment with
`amt = float(inv.amount or 0.0) <= 0` is skipped (`continue`), otherwise a
`Payout(investment_id=inv.id, amount=round(amt*roi, 2), kind="RETURN")` is
staged. -/
def payoutFor (roi : ℚ) (inv : Investment) : Option Payout :=
  let amt : ℚ := inv.amount.getD 0
  if amt ≤ 0 then none
  else some { investment_id := inv.id, amount := pyRound2 (amt * roi),
              kind := PAYOUT_KIND_RETURN }

/-- The body of `execute_payout_for_batch` after the ROI has been resolved:
stage one payout per eligible investment, then `db.commit()`.  A successful
commit appends the staged rows to the committed state; a failing commit is
rolled back (`db.rollback()`), leaving the committed state unchanged, and the
`SQLAlchemyError` re-raised. -/
def executeWith (db : DB) (batch : Batch) (roi : ℚ) (commitOk : Bool) :
    Except PayoutError (List Payout) × DB :=
  let created : List Payout := batch.investments.filterMap (payoutFor roi)
  if commitOk then
    (.ok created, { db with payouts := db.payouts ++ created })
  else
    (.error .persistence, db)

/-- `payouts.py` `execute_payout_for_batch`: `raise ValueError` when both
`roi_override` and `batch.expected_roi` are `None`, otherwise
`roi = roi_override if roi_override is not None else batch.expected_roi`. -/
def execute_payout_for_batch (db : DB) (batch : Batch)
    (roi_override : Option ℚ) (commitOk : Bool) :
    Except PayoutError (List Payout) × DB :=
  match roi_override, batch.expected_roi with
  | none, none =>
    (.error (.validation "ROI not specified on batch and no override given"), db)
  | some r, _ => executeWith db batch r commitOk
  | none, some r => executeWith db batch r commitOk

/-- `routers/investors.py`: every handler resolves the acting user as
`db.query(User).order_by(User.id.asc()).first()` — the user with the smallest
id (the earliest row on ties). -/
def firstUser (users : List UserRow) : Option UserRow :=
  users.foldl
    (fun acc u =>
      match acc with
      | none => some u
      | some v => if u.id < v.id then some u else some v)
    none

/-- `db.query(Wallet).filter(Wallet.user_id == user.id).first()`. -/
def findWallet (wallets : List WalletRow) (uid : Nat) : Option WalletRow :=
  wallets.find? (fun w => w.user_id == uid)

/-- Committing a balance written through the first wallet row matching
`user_id` (the row the handler loaded with `.first()`). -/
def setWalletBalance : List WalletRow → Nat → ℚ → List WalletRow
  | [], _, _ => []
  | w :: ws, uid, b =>
    if w.user_id == uid then { w with balance := b } :: ws
    else w :: setWalletBalance ws uid b

/-- `db.get(Batch, batch_id)`: primary-key lookup. -/
def getBatch (batches : List Batch) (bid : Nat) : Option Batch :=
  batches.find? (fun b => b.id == bid)

/-- Committing a `units_placed` written through the batch row with the given
primary key. -/
def setBatchUnitsPlaced : List Batch → Nat → Int → List Batch
  | [], _, _ => []
  | b :: bs, bid, u =>
    if b.id == bid then { b with units_placed := u } :: bs
    else b :: setBatchUnitsPlaced bs bid u

/-- Observable outcome of the `/invest/deposit` handler. -/
inductive DepositResult where
  | noUser : DepositResult
  | httpError : Nat → String → DepositResult
  | ok : ℚ → DepositResult
deriving DecidableEq

/-- `routers/investors.py` `deposit`: no user → `{"success": False}`;
non-positive amount → HTTP 400; missing wallet → HTTP 400; otherwise
`w.balance += amount; db.commit()` and the new balance is returned. -/
def deposit (db : DB) (amount : ℚ) : DepositResult × DB :=
  match firstUser db.users with
  | none => (.noUser, db)
  | some user =>
    if amount ≤ 0 then (.httpError 400 "Amount must be positive", db)
    else
      match findWallet db.wallets user.id with
      | none => (.httpError 400 "Wallet missing", db)
      | some w =>
        let newBal : ℚ := w.balance + amount
        (.ok newBal, { db with wallets := setWalletBalance db.wallets user.id newBal })

/-- `schemas.py` `InvestmentIn`. -/
structure InvestmentIn where
  batch_id : Nat
  units : Int
deriving DecidableEq

/-- Observable outcome of the `/invest/create` handler. -/
inductive CreateResult where
  | noUser : CreateResult
  | httpError : Nat → String → CreateResult
  | ok : Investment → CreateResult
deriving DecidableEq

/-- `routers/investors.py` `create_investment`.  The body runs inside
`try: ... except Exception: raise HTTPException(500, "Failed to create
investment")`, and the inner `HTTPException(400, ...)` raises (batch missing
or not PLANNED/ACTIVE, wallet missing, insufficient balance) are `Exception`s
too, so every failure surfaces as that 500 with the session uncommitted.  On
success the wallet debit, the new investment row, and the incremented
`units_placed` are committed together.  The new row's server-assigned primary
key is embedded as the next index. -/
def create_investment (db : DB) (payload : InvestmentIn) : CreateResult × DB :=
  match firstUser db.users with
  | none => (.noUser, db)
  | some user =>
    match getBatch db.batches payload.batch_id with
    | none => (.httpError 500 "Failed to create investment", db)
    | some batch =>
      if batch.status ≠ "PLANNED" ∧ batch.status ≠ "ACTIVE" then
        (.httpError 500 "Failed to create investment", db)
      else
        let amount : ℚ := batch.unit_price * (payload.units : ℚ)
        match findWallet db.wallets user.id with
        | none => (.httpError 500 "Failed to create investment", db)
        | some w =>
          if w.balance < amount then
            (.httpError 500 "Failed to create investment", db)
          else
            let inv : Investment :=
              { id := db.investments.length + 1, user_id := user.id,
                batch_id := batch.id, units := payload.units,
                amount := some amount, status := "ACTIVE" }
            (.ok inv,
             { db with
                 wallets := setWalletBalance db.wallets user.id (w.balance - amount),
                 batches := setBatchUnitsPlaced db.batches batch.id
                              (batch.units_placed + payload.units),
                 investments := db.investments ++ [inv] })

/-! Concrete fixtures used by the closed instances below. -/

/-- An empty database. -/
def dbE : DB := { users := [], wallets := [], batches := [], investments := [], payouts := [] }

/-- Investment of principal 1000. -/
def invA : Investment :=
  { id := 11, user_id := 1, batch_id := 1, units := 10, amount := some 1000,
    status := "ACTIVE" }

/-- Investment of principal 2500. -/
def invB : Investment :=
  { id := 12, user_id := 1, batch_id := 1, units := 25, amount := some 2500,
    status := "ACTIVE" }

/-- Investment whose principal column is null. -/
def invZero : Investment :=
  { id := 13, user_id := 1, batch_id := 1, units := 0, amount := none,
    status := "ACTIVE" }

/-- Investment with a negative principal. -/
def invNeg : Investment :=
  { id := 14, user_id := 1, batch_id := 1, units := 1, amount := some (-100),
    status := "ACTIVE" }

/-- Batch with multiplier 0.12 and principals 1000 and 2500 (the spec's
scenario). -/
def batchC2 : Batch :=
  { id := 1, farm_id := 1, product_type := .EGG, status := "ACTIVE",
    unit_price := 100, target_units := 100, units_placed := 35, feed_price := 6,
    mortality_rate := 7 / 100, expected_roi := some (12 / 100),
    investments := [invA, invB] }

/-- Batch holding only the negative-principal investment. -/
def batchNeg : Batch := { batchC2 with investments := [invNeg] }

/-- Batch whose `expected_roi` column is null. -/
def batchNoRoi : Batch := { batchC2 with expected_roi := none }

/-- The payout rows `execute_payout_for_batch` creates for `batchC2`. -/
def recsC2 : List Payout :=
  [{ investment_id := 11, amount := 120, kind := "RETURN" },
   { investment_id := 12, amount := 300, kind := "RETURN" }]

/-- The database after one successful execution on `batchC2`. -/
def dbAfterC2 : DB := { dbE with payouts := recsC2 }

/-- A user row. -/
def u1 : UserRow := { id := 1, email := "investor@example.com", is_admin := false }

/-- That user's wallet, holding 500. -/
def w1 : WalletRow := { id := 1, user_id := 1, balance := 500 }

/-- An ACTIVE batch with unit price 50 (the spec's purchase scenario). -/
def b7 : Batch :=
  { id := 7, farm_id := 1, product_type := .CHICKEN, status := "ACTIVE",
    unit_price := 50, target_units := 100, units_placed := 0, feed_price := 6,
    mortality_rate := 7 / 100, expected_roi := some (12 / 100), investments := [] }

/-- A harvested batch: not open for investment. -/
def b8 : Batch := { b7 with id := 8, status := "HARVESTED" }

/-- Database for the purchase scenario: one user, wallet of 500, batch `b7`. -/
def db5 : DB :=
  { users := [u1], wallets := [w1], batches := [b7], investments := [], payouts := [] }

/-- Same database but the only batch is harvested. -/
def dbClosed : DB := { db5 with batches := [b8] }

section

attribute [local semireducible] Rat.mul Rat.add Rat.sub Rat.inv Rat.ofScientific

/-- A left fold accumulating `f` over a list is the starting value plus the sum
of the mapped list. -/
theorem foldl_add_eq_sum (f : Investment → ℚ) (l : List Investment) (a : ℚ) :
    l.foldl (fun t inv => t + f inv) a = a + (l.map f).sum := by
  induction l generalizing a with
  | nil => simp
  | cons x xs ih => simp [List.foldl_cons, ih, add_assoc]

/-- On a list of strictly positive principals, the eligibility filter of the
execution path degenerates to a map: nothing is skipped. -/
theorem filterMap_payoutFor_pos (r : ℚ) (l : List Investment)
    (h : ∀ inv ∈ l, 0 < inv.amount.getD 0) :
    l.filterMap (payoutFor r)
      = l.map (fun inv =>
          { investment_id := inv.id, amount := pyRound2 (inv.amount.getD 0 * r),
            kind := "RETURN" }) := by
  induction l with
  | nil => rfl
  | cons x xs ih =>
    have hx : ¬ x.amount.getD 0 ≤ 0 :=
      not_le.mpr (h x (List.mem_cons_self x xs))
    have hxs : ∀ inv ∈ xs, 0 < inv.amount.getD 0 :=
      fun inv hm => h inv (List.mem_cons_of_mem x hm)
    simp [List.filterMap_cons, payoutFor, hx, ih hxs, PAYOUT_KIND_RETURN]

/-- Writing a balance through the first wallet row matching a user id commutes
with looking that row up. -/
theorem findWallet_setWalletBalance (ws : List WalletRow) (uid : Nat) (b : ℚ) :
    findWallet (setWalletBalance ws uid b) uid
      = (findWallet ws uid).map (fun w => { w with balance := b }) := by
  induction ws with
  | nil => rfl
  | cons w ws ih =>
    by_cases h : w.user_id == uid
    · simp [setWalletBalance, findWallet, List.find?_cons, h]
    · simp only [setWalletBalance, h, Bool.false_eq_true, if_false]
      simp [findWallet, List.find?_cons, h] at ih ⊢
      exact ih

/-- Writing `units_placed` through the batch row with a given primary key
commutes with the primary-key lookup. -/
theorem getBatch_setBatchUnitsPlaced (bs : List Batch) (bid : Nat) (u : Int) :
    getBatch (setBatchUnitsPlaced bs bid u) bid
      = (getBatch bs bid).map (fun b => { b with units_placed := u }) := by
  induction bs with
  | nil => rfl
  | cons b bs ih =>
    by_cases h : b.id == bid
    · simp [setBatchUnitsPlaced, getBatch, List.find?_cons, h]
    · simp only [setBatchUnitsPlaced, h, Bool.false_eq_true, if_false]
      simp [getBatch, List.find?_cons, h] at ih ⊢
      exact ih

/-- C7: `simulate_payout_for_batch` is read-only — for every batch it leaves
the entire database state (users, wallets, batches, investments, payouts)
unchanged. -/
theorem C7_simulate_is_read_only (db : DB) (batch : Batch) :
    (simulate_payout_for_batch db batch).2 = db := by
  rcases hroi : batch.expected_roi with _ | r <;>
    simp [simulate_payout_for_batch, hroi]

/-- C4: when the batch's own return multiplier is null and no override is
supplied, `execute_payout_for_batch` fails with the `ValidationError` kind and
persists nothing — the committed database state is returned unchanged, whether
or not the underlying commit would have succeeded. -/
theorem C4_execute_missing_roi (db : DB) (batch : Batch) (c : Bool)
    (h : batch.expected_roi = none) :
    execute_payout_for_batch db batch none c
      = (.error (.validation "ROI not specified on batch and no override given"),
         db) := by
  simp [execute_payout_for_batch, h]

/-- C4 witness: the concrete null-ROI batch fails with `ValidationError` and
the database is untouched. -/
theorem C4_witness :
    batchNoRoi.expected_roi = none
    ∧ execute_payout_for_batch dbE batchNoRoi none true
        = (.error (.validation "ROI not specified on batch and no override given"),
           dbE) :=
  ⟨rfl, C4_execute_missing_roi dbE batchNoRoi true rfl⟩

/-- C3: whenever the commit inside `execute_payout_for_batch` fails (for any
batch whose ROI resolves, so that the commit is actually reached), the
operation rolls back fully — the committed database state is returned exactly
as it was, with no partial set of payout rows — and the persistence failure
propagates as the `persistence` error kind, distinct from the validation
kind. -/
theorem C3_commit_failure_rolls_back (db : DB) (batch : Batch) (ov : Option ℚ)
    (r : ℚ) (h : ov = some r ∨ (ov = none ∧ batch.expected_roi = some r)) :
    execute_payout_for_batch db batch ov false = (.error .persistence, db)
    ∧ PayoutError.persistence
        ≠ PayoutError.validation "ROI not specified on batch and no override given" := by
  refine ⟨?_, by simp⟩
  rcases h with h | ⟨h1, h2⟩
  · subst h; simp [execute_payout_for_batch, executeWith]
  · subst h1; simp [execute_payout_for_batch, h2, executeWith]

/-- C3 witness: a failing commit on the concrete two-investment batch leaves
the empty database unchanged and surfaces the persistence error kind. -/
theorem C3_witness :
    execute_payout_for_batch dbE batchC2 none false = (.error .persistence, dbE)
    ∧ PayoutError.persistence
        ≠ PayoutError.validation "ROI not specified on batch and no override given" :=
  C3_commit_failure_rolls_back dbE batchC2 none (12 / 100) (Or.inr ⟨rfl, rfl⟩)

/-- C6: with an override multiplier supplied, `execute_payout_for_batch`
ignores the batch's own return multiplier entirely (replacing it by any other
value changes nothing), and every payout amount it returns is computed from
the override value. -/
theorem C6_override_takes_precedence (db : DB) (batch : Batch) (r : ℚ)
    (e : Option ℚ) (c : Bool) (recs : List Payout)
    (h : (execute_payout_for_batch db batch (some r) c).1 = .ok recs) :
    execute_payout_for_batch db batch (some r) c
      = execute_payout_for_batch db { batch with expected_roi := e } (some r) c
    ∧ recs = batch.investments.filterMap (payoutFor r) := by
  constructor
  · simp [execute_payout_for_batch, executeWith]
  · cases c with
    | false => simp [execute_payout_for_batch, executeWith] at h
    | true =>
      simp [execute_payout_for_batch, executeWith] at h
      exact h.symm

/-- C6 witness: on the concrete batch whose own multiplier is 0.12, executing
with override 0.5 gives the same outcome as with the batch's multiplier
swapped to 0.99, and the returned amounts come from the override. -/
theorem C6_witness :
    execute_payout_for_batch dbE batchC2 (some (5 / 10)) true
      = execute_payout_for_batch dbE { batchC2 with expected_roi := some (99 / 100) }
          (some (5 / 10)) true
    ∧ [({ investment_id := 11, amount := 500, kind := "RETURN" } : Payout),
       { investment_id := 12, amount := 1250, kind := "RETURN" }]
        = batchC2.investments.filterMap (payoutFor (5 / 10)) :=
  C6_override_takes_precedence dbE batchC2 (5 / 10) (some (99 / 100)) true
    [{ investment_id := 11, amount := 500, kind := "RETURN" },
     { investment_id := 12, amount := 1250, kind := "RETURN" }]
    (by decide)

/-- C1 counterexample: the claim says a NEGATIVE principal also contributes
`0.00` to the simulated total, but on the batch with multiplier 0.12 holding
the single investment of principal −100, `simulate_payout_for_batch` returns
−12.00 while the same batch without that investment totals 0.00 — the
investment's contribution is −12.00, not 0.00 (Python `inv.amount or 0.0`
zeroes only `None` and `0.0`, not negatives). -/
theorem C1_counterexample :
    simulate_payout_for_batch dbE batchNeg = (.ok (-12), dbE)
    ∧ simulate_payout_for_batch dbE { batchNeg with investments := [] }
        = (.ok 0, dbE)
    ∧ (-12 : ℚ) ≠ 0 := by
  refine ⟨by decide, by decide, by decide⟩

/-- C1 (amended): for every batch with return multiplier set, an investment
whose principal is zero or null/absent contributes `0.00` to
`simulate_payout_for_batch`'s total (it is iterated, not skipped), while
`execute_payout_for_batch` excludes every investment whose principal is
non-positive (zero, negative, or null) entirely: removing it changes neither
the returned list nor the persisted payout rows. -/
theorem C1_zero_contributes_vs_skip (db : DB) (batch : Batch) (r : ℚ)
    (pre post : List Investment) (inv0 invn : Investment) (ov : Option ℚ)
    (c : Bool) (hroi : batch.expected_roi = some r)
    (h0 : inv0.amount.getD 0 = 0) (hn : invn.amount.getD 0 ≤ 0) :
    simulate_payout_for_batch db { batch with investments := pre ++ inv0 :: post }
      = simulate_payout_for_batch db { batch with investments := pre ++ post }
    ∧ execute_payout_for_batch db { batch with investments := pre ++ invn :: post } ov c
      = execute_payout_for_batch db { batch with investments := pre ++ post } ov c := by
  constructor
  · simp only [simulate_payout_for_batch, hroi]
    rw [foldl_add_eq_sum, foldl_add_eq_sum]
    simp [h0]
  · have hskip : payoutFor r invn = none ∧ ∀ r2 : ℚ, payoutFor r2 invn = none :=
      ⟨by simp [payoutFor, hn], fun r2 => by simp [payoutFor, hn]⟩
    rcases ov with _ | rov
    · rcases hroi2 : batch.expected_roi with _ | rb
      · simp [execute_payout_for_batch, hroi2]
      · simp [execute_payout_for_batch, hroi2, executeWith,
              List.filterMap_append, List.filterMap_cons, hskip.2 rb]
    · simp [execute_payout_for_batch, executeWith, List.filterMap_append,
            List.filterMap_cons, hskip.2 rov]

/-- C1 witness: with the 0.12 batch, inserting the null-principal investment
between the two positive ones does not change the simulated total, and
inserting the −100 investment does not change what execution returns or
persists. -/
theorem C1_witness :
    simulate_payout_for_batch dbE { batchC2 with investments := [invA] ++ invZero :: [invB] }
      = simulate_payout_for_batch dbE { batchC2 with investments := [invA] ++ [invB] }
    ∧ execute_payout_for_batch dbE { batchC2 with investments := [invA] ++ invNeg :: [invB] }
        none true
      = execute_payout_for_batch dbE { batchC2 with investments := [invA] ++ [invB] }
          none true :=
  C1_zero_contributes_vs_skip dbE batchC2 (12 / 100) [invA] [invB] invZero invNeg
    none true rfl (by decide) (by decide)

/-- C2: for a batch whose multiplier is `r` and whose principals are all
strictly positive, simulation returns the two-decimal rounding of the sum of
`principal * r`, and execution creates exactly one `"RETURN"` payout per
investment, in iteration order, with amount `round(principal * r, 2)`,
appending exactly those rows to the persisted payouts. -/
theorem C2_positive_principals (db : DB) (batch : Batch) (r : ℚ)
    (hroi : batch.expected_roi = some r)
    (hpos : ∀ inv ∈ batch.investments, 0 < inv.amount.getD 0) :
    simulate_payout_for_batch db batch
      = (.ok (pyRound2 ((batch.investments.map
            (fun inv => inv.amount.getD 0 * r)).sum)), db)
    ∧ execute_payout_for_batch db batch none true
      = (.ok (batch.investments.map (fun inv =>
            { investment_id := inv.id, amount := pyRound2 (inv.amount.getD 0 * r),
              kind := "RETURN" })),
         { db with payouts := db.payouts ++ batch.investments.map (fun inv =>
            { investment_id := inv.id, amount := pyRound2 (inv.amount.getD 0 * r),
              kind := "RETURN" }) }) := by
  constructor
  · simp [simulate_payout_for_batch, hroi, foldl_add_eq_sum]
  · simp [execute_payout_for_batch, hroi, executeWith,
          filterMap_payoutFor_pos r batch.investments hpos]

/-- C2 witness: the spec's scenario — multiplier 0.12, principals 1000 and
2500 — simulates to 420.00 and executes to two RETURN records of 120.00 and
300.00, in order. -/
theorem C2_witness :
    simulate_payout_for_batch dbE batchC2 = (.ok 420, dbE)
    ∧ execute_payout_for_batch dbE batchC2 none true
      = (.ok recsC2, { dbE with payouts := recsC2 }) := by
  have h := C2_positive_principals dbE batchC2 (12 / 100) rfl (by decide)
  exact ⟨h.1.trans (by decide), h.2.trans (by decide)⟩

/-- C8: `execute_payout_for_batch` has no already-paid guard — its outcome
ignores previously persisted payout rows, so a second invocation on the same
batch with identical inputs returns the same record list again (in particular
the same number of records) and appends a second full copy to the persisted
payouts. -/
theorem C8_no_deduplication (db db2 : DB) (batch : Batch) (ov : Option ℚ)
    (recs : List Payout)
    (h : execute_payout_for_batch db batch ov true = (.ok recs, db2)) :
    execute_payout_for_batch db2 batch ov true
      = (.ok recs, { db2 with payouts := db2.payouts ++ recs })
    ∧ db2.payouts = db.payouts ++ recs := by
  rcases ov with _ | r
  · rcases hroi : batch.expected_roi with _ | r
    · simp [execute_payout_for_batch, hroi] at h
    · simp only [execute_payout_for_batch, hroi, executeWith, if_true,
        Prod.mk.injEq, Except.ok.injEq] at h
      obtain ⟨h1, h2⟩ := h
      subst h2
      subst h1
      simp [execute_payout_for_batch, hroi, executeWith]
  · simp only [execute_payout_for_batch, executeWith, if_true,
      Prod.mk.injEq, Except.ok.injEq] at h
    obtain ⟨h1, h2⟩ := h
    subst h2
    subst h1
    simp [execute_payout_for_batch, executeWith]

/-- C8 witness: re-running execution on the 0.12 batch after one successful
run returns the same two records and makes four persisted rows in total. -/
theorem C8_witness :
    execute_payout_for_batch dbAfterC2 batchC2 none true
      = (.ok recsC2, { dbAfterC2 with payouts := dbAfterC2.payouts ++ recsC2 })
    ∧ dbAfterC2.payouts = dbE.payouts ++ recsC2 :=
  C8_no_deduplication dbE dbAfterC2 batchC2 none recsC2 (by decide)

/-- C9: for a database whose acting user has a wallet, a deposit of
non-positive amount fails with HTTP 400 and leaves the whole database
(hence the balance) unchanged, while a deposit of positive amount succeeds
and sets the balance to exactly the old balance plus that amount. -/
theorem C9_deposit_validation (db : DB) (amount : ℚ) (user : UserRow)
    (w : WalletRow) (hu : firstUser db.users = some user)
    (hw : findWallet db.wallets user.id = some w) :
    (amount ≤ 0 → deposit db amount = (.httpError 400 "Amount must be positive", db))
    ∧ (0 < amount →
        (deposit db amount).1 = .ok (w.balance + amount)
        ∧ findWallet (deposit db amount).2.wallets user.id
            = some { w with balance := w.balance + amount }) := by
  constructor
  · intro hle
    simp [deposit, hu, hle]
  · intro hpos
    have hle : ¬ amount ≤ 0 := not_le.mpr hpos
    constructor
    · simp [deposit, hu, hle, hw]
    · simp [deposit, hu, hle, hw, findWallet_setWalletBalance]

/-- C9 witness: on the wallet of 500, depositing 100 succeeds with new balance
600, and depositing −5 fails with HTTP 400 leaving the database unchanged. -/
theorem C9_witness :
    (deposit db5 100).1 = .ok 600
    ∧ findWallet (deposit db5 100).2.wallets 1 = some { w1 with balance := 600 }
    ∧ deposit db5 (-5) = (.httpError 400 "Amount must be positive", db5) := by
  have hp := (C9_deposit_validation db5 100 u1 w1 (by decide) (by decide)).2 (by decide)
  have hn := (C9_deposit_validation db5 (-5) u1 w1 (by decide) (by decide)).1 (by decide)
  exact ⟨hp.1.trans (by decide), hp.2.trans (by decide), hn⟩

/-- C5: for a database whose acting user has a wallet and whose requested
batch is open (PLANNED or ACTIVE), a purchase whose amount
(`unit_price * units`) exceeds the wallet balance fails and leaves the whole
database — hence the balance — unchanged, while a purchase whose amount is at
most the balance succeeds and debits exactly that amount, leaving a
necessarily non-negative balance. -/
theorem C5_purchase_balance_guard (db : DB) (payload : InvestmentIn)
    (user : UserRow) (w : WalletRow) (batch : Batch)
    (hu : firstUser db.users = some user)
    (hb : getBatch db.batches payload.batch_id = some batch)
    (hs : batch.status = "PLANNED" ∨ batch.status = "ACTIVE")
    (hw : findWallet db.wallets user.id = some w) :
    (w.balance < batch.unit_price * (payload.units : ℚ) →
        create_investment db payload
          = (.httpError 500 "Failed to create investment", db))
    ∧ (batch.unit_price * (payload.units : ℚ) ≤ w.balance →
        (create_investment db payload).1
          = .ok { id := db.investments.length + 1, user_id := user.id,
                  batch_id := batch.id, units := payload.units,
                  amount := some (batch.unit_price * (payload.units : ℚ)),
                  status := "ACTIVE" }
        ∧ findWallet (create_investment db payload).2.wallets user.id
            = some { w with balance := w.balance - batch.unit_price * (payload.units : ℚ) }
        ∧ 0 ≤ w.balance - batch.unit_price * (payload.units : ℚ)) := by
  have hsne : ¬ (batch.status ≠ "PLANNED" ∧ batch.status ≠ "ACTIVE") := by
    rcases hs with h | h <;> simp [h]
  constructor
  · intro hlt
    simp [create_investment, hu, hb, hsne, hw, hlt]
  · intro hle
    have hnlt : ¬ w.balance < batch.unit_price * (payload.units : ℚ) :=
      not_lt.mpr hle
    refine ⟨?_, ?_, sub_nonneg.mpr hle⟩
    · simp [create_investment, hu, hb, hsne, hw, hnlt]
    · simp [create_investment, hu, hb, hsne, hw, hnlt, findWallet_setWalletBalance]

/-- C5 witness: the spec's scenario — wallet of 500, unit price 50, 3 units —
succeeds, records amount 150, and leaves balance 350. -/
theorem C5_witness :
    (create_investment db5 { batch_id := 7, units := 3 }).1
      = .ok { id := 1, user_id := 1, batch_id := 7, units := 3,
              amount := some 150, status := "ACTIVE" }
    ∧ findWallet (create_investment db5 { batch_id := 7, units := 3 }).2.wallets 1
        = some { w1 with balance := 350 }
    ∧ (0 : ℚ) ≤ 350 := by
  have h := (C5_purchase_balance_guard db5 { batch_id := 7, units := 3 } u1 w1 b7
      (by decide) (by decide) (Or.inr (by decide)) (by decide)).2 (by decide)
  exact ⟨h.1.trans (by decide), h.2.1.trans (by decide), by decide⟩

/-- C10: for a database whose acting user has a wallet, a purchase against a
batch whose status is neither PLANNED nor ACTIVE fails and leaves the whole
database (batch and wallet included) unchanged, while a successful purchase
(open batch, sufficient balance) commits together the batch's `units_placed`
incremented by exactly the purchased units, the appended investment row, and
the debited wallet. -/
theorem C10_status_gate_and_units_placed (db : DB) (payload : InvestmentIn)
    (user : UserRow) (w : WalletRow) (batch : Batch)
    (hu : firstUser db.users = some user)
    (hb : getBatch db.batches payload.batch_id = some batch)
    (hw : findWallet db.wallets user.id = some w) :
    (batch.status ≠ "PLANNED" ∧ batch.status ≠ "ACTIVE" →
        create_investment db payload
          = (.httpError 500 "Failed to create investment", db))
    ∧ ((batch.status = "PLANNED" ∨ batch.status = "ACTIVE") →
        batch.unit_price * (payload.units : ℚ) ≤ w.balance →
        getBatch (create_investment db payload).2.batches payload.batch_id
          = some { batch with units_placed := batch.units_placed + payload.units }
        ∧ (create_investment db payload).2.investments
          = db.investments ++
              [{ id := db.investments.length + 1, user_id := user.id,
                 batch_id := batch.id, units := payload.units,
                 amount := some (batch.unit_price * (payload.units : ℚ)),
                 status := "ACTIVE" }]
        ∧ findWallet (create_investment db payload).2.wallets user.id
            = some { w with balance := w.balance - batch.unit_price * (payload.units : ℚ) }) := by
  constructor
  · intro hclosed
    simp [create_investment, hu, hb, hclosed]
  · intro hs hle
    have hsne : ¬ (batch.status ≠ "PLANNED" ∧ batch.status ≠ "ACTIVE") := by
      rcases hs with h | h <;> simp [h]
    have hnlt : ¬ w.balance < batch.unit_price * (payload.units : ℚ) :=
      not_lt.mpr hle
    have hid : batch.id = payload.batch_id := by
      have hb2 : db.batches.find? (fun b => b.id == payload.batch_id) = some batch := hb
      have hfind := List.find?_some hb2
      simpa using hfind
    have hb3 : getBatch db.batches batch.id = some batch := by rw [hid]; exact hb
    refine ⟨?_, ?_, ?_⟩
    · simp only [create_investment, hu, hb, hsne, if_neg, hw, hnlt, if_false]
      rw [← hid, getBatch_setBatchUnitsPlaced, hb3]
      rfl
    · simp [create_investment, hu, hb, hsne, hw, hnlt]
    · simp [create_investment, hu, hb, hsne, hw, hnlt, findWallet_setWalletBalance]

/-- C10 witness: buying 3 units of the harvested batch fails leaving the
database unchanged, while buying 3 units of the ACTIVE batch sets its
`units_placed` from 0 to 3, appends the investment row, and debits the
wallet from 500 to 350. -/
theorem C10_witness :
    create_investment dbClosed { batch_id := 8, units := 3 }
      = (.httpError 500 "Failed to create investment", dbClosed)
    ∧ getBatch (create_investment db5 { batch_id := 7, units := 3 }).2.batches 7
        = some { b7 with units_placed := 3 }
    ∧ (create_investment db5 { batch_id := 7, units := 3 }).2.investments
        = [{ id := 1, user_id := 1, batch_id := 7, units := 3,
             amount := some 150, status := "ACTIVE" }]
    ∧ findWallet (create_investment db5 { batch_id := 7, units := 3 }).2.wallets 1
        = some { w1 with balance := 350 } := by
  have hgate := (C10_status_gate_and_units_placed dbClosed { batch_id := 8, units := 3 }
      u1 w1 b8 (by decide) (by decide) (by decide)).1 (by decide)
  have hok := (C10_status_gate_and_units_placed db5 { batch_id := 7, units := 3 }
      u1 w1 b7 (by decide) (by decide) (by decide)).2 (Or.inr (by decide)) (by decide)
  exact ⟨hgate, hok.1.trans (by decide), hok.2.1.trans (by decide),
         hok.2.2.trans (by decide)⟩

end
